import Mathlib

/-!
Shallow embedding of the traversability-assessment engine of
`traversability_estimation/src/TraversabilityMap.cpp` (class
`traversability_estimation::TraversabilityMap`), together with proofs about
the claims of the specification.

Modelling conventions:
* A grid cell is an integer index pair, a physical position a rational pair.
* A grid layer maps a cell to `Option ℚ`: `none` is the invalid (NaN)
  sentinel of `grid_map`; the C++ comparison `value == 0.0` (false on NaN)
  becomes `value = some 0`.
* `double` arithmetic is modelled exactly over `ℚ`.
* `grid_map` region iterators (spiral, line, circle) are external library
  code; each embedded operation takes the iterator's produced cell sequence
  as an explicit list argument, and theorems that need an ordering property
  of the spiral (first cell is the centre cell at radius 0) take it as a
  hypothesis, following the spec's description of the iterators.
-/

namespace TravEst

/-- A grid cell, addressed by an integer (row, col) index pair. -/
abbrev Cell := Int × Int

/-- A physical 2D position. -/
abbrev Pos := ℚ × ℚ

/-- A named layer of the grid: one optional float value per cell,
`none` being the invalid (NaN) sentinel. -/
abbrev GridLayer := Cell → Option ℚ

/-- The traversability grid as used by `TraversabilityMap`: geometry
conversions plus the base layers (`traversability`, `traversability_slope`,
`traversability_step`, `traversability_roughness`, `robot_slope`,
`elevation`) and the cached footprint layers (`*_footprint`).  The `has*`
flags model `grid_map::GridMap::exists` for the footprint layers. -/
structure TravMap where
  isInside : Pos → Bool
  getIndex : Pos → Cell
  getPosition : Cell → Pos
  trav : GridLayer
  slope : GridLayer
  step : GridLayer
  roughness : GridLayer
  robotSlope : GridLayer
  elevation : GridLayer
  travF : GridLayer
  slopeF : GridLayer
  stepF : GridLayer
  roughF : GridLayer
  hasTravF : Bool
  hasSlopeF : Bool
  hasStepF : Bool
  hasRoughF : Bool

/-- Write `traversability_footprint` at one cell
(`traversabilityMap_.at("traversability_footprint", c) = v`). -/
def TravMap.setTravF (m : TravMap) (c : Cell) (v : ℚ) : TravMap :=
  { m with travF := fun x => if x = c then some v else m.travF x }

/-- Write `slope_footprint` at one cell. -/
def TravMap.setSlopeF (m : TravMap) (c : Cell) (v : ℚ) : TravMap :=
  { m with slopeF := fun x => if x = c then some v else m.slopeF x }

/-- Write `step_footprint` at one cell. -/
def TravMap.setStepF (m : TravMap) (c : Cell) (v : ℚ) : TravMap :=
  { m with stepF := fun x => if x = c then some v else m.stepF x }

/-- Write `roughness_footprint` at one cell. -/
def TravMap.setRoughF (m : TravMap) (c : Cell) (v : ℚ) : TravMap :=
  { m with roughF := fun x => if x = c then some v else m.roughF x }

/-- Value contributed by an admissible cell to the running average of the
point/disc query: the `traversability` layer value, or the configured
default when that layer is invalid there (TraversabilityMap.cpp lines
766-771). -/
def travVal (m : TravMap) (default : ℚ) (c : Cell) : ℚ :=
  match m.trav c with
  | none => default
  | some v => v

/-- Sum of `travVal` over a list of spiral elements (cell, current radius). -/
def travSum (m : TravMap) (default : ℚ) (cells : List (Cell × ℚ)) : ℚ :=
  (cells.map fun x => travVal m default x.1).sum

/-- The linear blend factor of the spiral query,
`auto factor = ((untraversableRadius - radiusMin) / (radiusMax - radiusMin) + 1.0) / 2.0`
(TraversabilityMap.cpp line 753). -/
def blendFactor (radiusMin radiusMax r : ℚ) : ℚ :=
  ((r - radiusMin) / (radiusMax - radiusMin) + 1) / 2

/-- The untraversable polygon as constructed by the query layer: empty, a
circle approximation (`grid_map::Polygon::fromCircle`), or the convex hull
of collected cell positions
(`grid_map::Polygon::monotoneChainConvexHullOfPoints`). -/
inductive UPolygon where
  | empty : UPolygon
  | fromCircle (center : Pos) (radius : ℚ) : UPolygon
  | hullOfPoints (pts : List Pos) : UPolygon
deriving DecidableEq

/-- Mutable state of the spiral-search loop of
`TraversabilityMap::isTraversable(center, radiusMax, computeUntraversablePolygon, traversability, untraversablePolygon, radiusMin)`
(TraversabilityMap.cpp lines 728-773): cell counter, running
traversability accumulator, `maxUntraversableRadius`, `circleIsTraversable`,
`traversableRadiusBiggerMinRadius`, collected untraversable positions, and
the map (receiving `traversability_footprint` writes). -/
structure SpiralState where
  nCells : ℕ
  trav : ℚ
  maxURad : ℚ
  circleTrav : Bool
  stopGrow : Bool
  untravPos : List Pos
  m : TravMap

/-- One execution of the spiral loop of TraversabilityMap.cpp lines 734-773
over the cell/radius sequence produced by `grid_map::SpiralIterator`.
`.error` is the early `return false` of line 763 (which leaves the
untraversable polygon empty as initialised on line 706 and hands out the
current accumulator value through the by-reference `traversability`);
`.ok` is normal loop termination. -/
def spiralLoop (adm : Cell → Bool) (default radiusMin radiusMax : ℚ)
    (computeUP : Bool) (ic : Cell) :
    List (Cell × ℚ) → SpiralState → Except (Bool × ℚ × UPolygon × TravMap) SpiralState
  | [], s => .ok s
  | (c, r) :: rest, s =>
    if s.stopGrow then .ok s
    else if adm c then
      spiralLoop adm default radiusMin radiusMax computeUP ic rest
        { s with nCells := s.nCells + 1, trav := s.trav + travVal s.m default c }
    else
      let s1 : SpiralState :=
        if radiusMin = 0 then
          { s with maxURad := max s.maxURad r, circleTrav := false,
                   m := s.m.setTravF ic 0,
                   untravPos := s.untravPos ++ [s.m.getPosition c] }
        else if r ≤ radiusMin then
          { s with maxURad := max s.maxURad r, circleTrav := false,
                   m := s.m.setTravF ic 0,
                   untravPos := s.untravPos ++ [s.m.getPosition c] }
        else if s.circleTrav then
          { s with maxURad := max s.maxURad r,
                   trav := s.trav * (blendFactor radiusMin radiusMax r / (s.nCells : ℚ)),
                   m := s.m.setTravF ic
                          (s.trav * (blendFactor radiusMin radiusMax r / (s.nCells : ℚ))),
                   circleTrav := true, stopGrow := true }
        else
          { s with maxURad := max s.maxURad r }
      if computeUP then
        spiralLoop adm default radiusMin radiusMax computeUP ic rest s1
      else
        .error (false, s1.trav, UPolygon.empty, s1.m)

/-- Embedding of the point/disc query
`TraversabilityMap::isTraversable(center, radiusMax, computeUntraversablePolygon, traversability, untraversablePolygon, radiusMin)`
(TraversabilityMap.cpp lines 701-793).  `adm` is the per-cell admissibility
check `isTraversableForFilters` (embedded separately as the `checkFor*`
functions; its footprint-cache writes touch neither the
`traversability_footprint` layer nor the `traversability` layer read here),
`spiral` the cell/radius sequence of the spiral iterator, `default` the
configured `traversabilityDefault_`.  Returns
(`circleIsTraversable`, `traversability`, `untraversablePolygon`, updated map). -/
def isTraversableCircle (m : TravMap) (adm : Cell → Bool)
    (spiral : List (Cell × ℚ)) (default : ℚ) (center : Pos)
    (radiusMax : ℚ) (computeUP : Bool) (radiusMin : ℚ) :
    Bool × ℚ × UPolygon × TravMap :=
  if m.isInside center then
    let ic := m.getIndex center
    match m.travF ic with
    | some t =>
      if t ≠ 0 then (true, t, UPolygon.empty, m)
      else (false, t,
            if computeUP then UPolygon.fromCircle center radiusMax else UPolygon.empty, m)
    | none =>
      match spiralLoop adm default radiusMin radiusMax computeUP ic spiral
              ⟨0, 0, 0, true, false, [], m⟩ with
      | .error res => res
      | .ok s =>
        if s.circleTrav then
          (true, s.trav / (s.nCells : ℚ), UPolygon.empty,
           s.m.setTravF ic (s.trav / (s.nCells : ℚ)))
        else
          (false, s.trav,
           if computeUP then UPolygon.hullOfPoints s.untravPos else UPolygon.empty, s.m)
  else
    if default ≠ 0 then (true, default, UPolygon.empty, m)
    else (false, default,
          if computeUP then UPolygon.fromCircle center radiusMax else UPolygon.empty, m)

/-- Embedding of `TraversabilityMap::checkInclination(start, end)`
(TraversabilityMap.cpp lines 795-809).  `line` is the cell sequence of
`grid_map::LineIterator(map, startIndex, endIndex)`.  For the stationary
case the C++ comparison `atPosition(robotSlopeType_, start) == 0.0` is
false on an invalid (NaN) value; in the loop an invalid cell is skipped by
`continue` and only a valid zero returns false. -/
def checkInclination (m : TravMap) (line : List Cell) (start stop : Pos) : Bool :=
  if stop = start then
    !(decide (m.robotSlope (m.getIndex start) = some 0))
  else
    line.all fun c =>
      match m.robotSlope c with
      | none => true
      | some v => !(decide (v = 0))

/-- Counting loop of `TraversabilityMap::checkForSlope` (TraversabilityMap.cpp
lines 925-934) over the cells of the window `grid_map::CircleIterator`:
count neighbour cells whose base slope value is 0, fail and cache 0 as soon
as the count exceeds the critical number, else cache 1 and succeed. -/
def checkForSlopeLoop (m : TravMap) (index : Cell) (crit : ℤ) :
    List Cell → ℤ → Bool × TravMap
  | [], _ => (true, m.setSlopeF index 1)
  | c :: rest, n =>
    let n2 := if m.slope c = some 0 then n + 1 else n
    if crit < n2 then (false, m.setSlopeF index 0)
    else checkForSlopeLoop m index crit rest n2

/-- Embedding of `TraversabilityMap::checkForSlope(index)`
(TraversabilityMap.cpp lines 914-940).  `circle` is the cell sequence of
the window `CircleIterator`; `maxGapWidth` and `resolution` are
`maxGapWidth_` and `traversabilityMap_.getResolution()`. -/
def checkForSlope (m : TravMap) (circle : List Cell)
    (maxGapWidth resolution : ℚ) (index : Cell) : Bool × TravMap :=
  if m.slope index = some 0 then
    match m.slopeF index with
    | none =>
      let windowRadius := 3 * resolution
      let criticalLength := maxGapWidth / 3
      let nSlopesCritical : ℤ :=
        Rat.floor (2 * windowRadius * criticalLength / resolution ^ 2)
      checkForSlopeLoop m index nSlopesCritical circle 0
    | some v => if v = 0 then (false, m) else (true, m)
  else (true, m)

/-- Counting loop of `TraversabilityMap::checkForRoughness`
(TraversabilityMap.cpp lines 953-961), same shape as the slope loop but on
the roughness layer and cache. -/
def checkForRoughnessLoop (m : TravMap) (index : Cell) (crit : ℤ) :
    List Cell → ℤ → Bool × TravMap
  | [], _ => (true, m.setRoughF index 1)
  | c :: rest, n =>
    let n2 := if m.roughness c = some 0 then n + 1 else n
    if crit < n2 then (false, m.setRoughF index 0)
    else checkForRoughnessLoop m index crit rest n2

/-- Embedding of `TraversabilityMap::checkForRoughness(index)`
(TraversabilityMap.cpp lines 942-968). -/
def checkForRoughness (m : TravMap) (circle : List Cell)
    (maxGapWidth resolution : ℚ) (index : Cell) : Bool × TravMap :=
  if m.roughness index = some 0 then
    match m.roughF index with
    | none =>
      let windowRadius := 3 * resolution
      let criticalLength := maxGapWidth / 3
      let nRoughnessCritical : ℤ :=
        Rat.floor ((3 / 2) * windowRadius * criticalLength / resolution ^ 2)
      checkForRoughnessLoop m index nRoughnessCritical circle 0
    | some v => if v = 0 then (false, m) else (true, m)
  else (true, m)

/-- Embedding of `TraversabilityMap::checkForStep(indexStep)`
(TraversabilityMap.cpp lines 841-912).  `search` abstracts the elevation
gap search of lines 845-906 (window scan, submap extraction and line
traces); it is entered only when the base step value is 0 and the
`step_footprint` cache is invalid, and it is the part that writes that
cache.  The guard structure around it is the embedded code. -/
def checkForStep (m : TravMap) (search : TravMap → Cell → Bool × TravMap)
    (indexStep : Cell) : Bool × TravMap :=
  if m.step indexStep = some 0 then
    match m.stepF indexStep with
    | none => search m indexStep
    | some v => if v = 0 then (false, m) else (true, m)
  else (true, m)

/-- Embedding of `TraversabilityMap::resetTraversabilityFootprintLayers()`
(TraversabilityMap.cpp lines 228-233): clear (<<make every cell invalid>>)
`step_footprint`, `slope_footprint` and `traversability_footprint`, each
only when the layer exists.  No other layer is touched. -/
def resetTraversabilityFootprintLayers (m : TravMap) : TravMap :=
  let m1 := if m.hasStepF then { m with stepF := fun _ => none } else m
  let m2 := if m1.hasSlopeF then { m1 with slopeF := fun _ => none } else m1
  let m3 := if m2.hasTravF then { m2 with travF := fun _ => none } else m2
  m3

/-- An incoming `grid_map_msgs::GridMap` message as far as the setters
inspect it: frame id, the set of layer names, the pose z value, and an
opaque content tag standing for the full cell data. -/
structure GridMapMsg where
  frameId : String
  layers : List String
  z : ℚ
  content : ℕ
deriving DecidableEq

/-- The fields of `TraversabilityMap` touched by the two map setters:
the configured frame id and required layer lists, `zPosition_`, the two
stored maps (as the last accepted message) and the two initialisation
flags. -/
structure MapNodeState where
  mapFrameId : String
  elevationMapLayers : List String
  traversabilityMapLayers : List String
  zPosition : ℚ
  elevationMap : Option GridMapMsg
  traversabilityMap : Option GridMapMsg
  elevationMapInitialized : Bool
  traversabilityMapInitialized : Bool
deriving DecidableEq

/-- Embedding of `TraversabilityMap::setElevationMap(msg)`
(TraversabilityMap.cpp lines 137-156): reject on frame mismatch before any
state change; otherwise write `zPosition_`, then reject if a required
elevation layer is missing, else store the map and set the flag. -/
def setElevationMap (st : MapNodeState) (msg : GridMapMsg) : Bool × MapNodeState :=
  if st.mapFrameId ≠ msg.frameId then (false, st)
  else if st.elevationMapLayers.all fun layer => msg.layers.contains layer then
    (true,
     { st with
        zPosition := msg.z
        elevationMap := some msg
        elevationMapInitialized := true })
  else (false, { st with zPosition := msg.z })

/-- Embedding of `TraversabilityMap::setTraversabilityMap(msg)`
(TraversabilityMap.cpp lines 158-172): no frame check; write `zPosition_`,
then reject if a required traversability layer is missing, else store the
map and set the flag. -/
def setTraversabilityMap (st : MapNodeState) (msg : GridMapMsg) : Bool × MapNodeState :=
  if st.traversabilityMapLayers.all fun layer => msg.layers.contains layer then
    (true,
     { st with
        zPosition := msg.z
        traversabilityMap := some msg
        traversabilityMapInitialized := true })
  else (false, { st with zPosition := msg.z })

/-- The `traversability_msgs::TraversabilityResult` fields set by the path
checks. -/
structure TravResult where
  is_safe : Bool
  traversability : ℚ
  area : ℚ
deriving DecidableEq

/-- Sampling of the line iterator in `checkCircularFootprintPath`
(TraversabilityMap.cpp lines 451-472): the loop body runs on one cell,
then `nSkip = 3` guarded increments plus the loop increment advance by
four, so every fourth produced cell is evaluated. -/
def sample4 : List Cell → List Cell
  | [] => []
  | [c] => [c]
  | [c, _] => [c]
  | [c, _, _] => [c]
  | c :: _ :: _ :: _ :: rest => c :: sample4 rest

/-- Inner line loop of a path segment in `checkCircularFootprintPath`
(TraversabilityMap.cpp lines 451-473): evaluate the disc query at every
sampled cell, and-accumulate `pathIsTraversable`, early-return the current
result (`return true` on line 463) as soon as the path is known
untraversable while neither the untraversable polygon nor polygon
publishing was requested, otherwise accumulate the sum and count. -/
def lineQueryFold (query : Pos → Bool × ℚ) (getPos : Cell → Pos)
    (computeUP pub : Bool) (res : TravResult) :
    List Cell → Bool → ℚ → ℕ → Except TravResult (Bool × ℚ × ℕ)
  | [], path, sum, n => .ok (path, sum, n)
  | c :: rest, path, sum, n =>
    let q := query (getPos c)
    let path2 := path && q.1
    if !path2 && !computeUP && !pub then .error res
    else lineQueryFold query getPos computeUP pub res rest path2 (sum + q.2) (n + 1)

/-- Per-segment loop of `checkCircularFootprintPath` for `arraySize > 1`
(TraversabilityMap.cpp lines 436-504), iteration index `i` starting at 1,
`prev` the previous pose.  `.error` is any early `return true` of the C++
(result fields kept as they are at that moment), `.ok` normal completion.
`junk i` is the value obtained when the local variable `lengthPath` —
declared inside the loop body on line 490 and therefore dead between
iterations — is read before being assigned in iteration `i ≥ 2` (lines
493-494 read it for `lengthPreviousPath` and `lengthPath +=`); the C++
reads an indeterminate value there. -/
def circularSegLoop (m : TravMap) (query : Pos → Bool × ℚ)
    (lineOf : Pos → Pos → List Cell) (segNorm : Pos → Pos → ℚ)
    (checkIncl : Bool) (inclLineOf : Pos → Pos → List Cell)
    (computeUP pub : Bool) (junk : ℕ → ℚ) :
    ℕ → Pos → TravResult → List Pos → Except TravResult TravResult
  | _, _, res, [] => .ok res
  | i, prev, res, p :: rest =>
    if checkIncl && !(checkInclination m (inclLineOf prev p) prev p) then .error res
    else
      match lineQueryFold query m.getPosition computeUP pub res
              (sample4 (lineOf p prev)) true 0 0 with
      | .error r => .error r
      | .ok (path, sum, n) =>
        if path then
          let trav := sum / (n : ℚ)
          let lengthSegment := segNorm prev p
          let res2 :=
            if 1 < i then
              { res with traversability :=
                  (lengthSegment * trav + junk i * res.traversability)
                    / (junk i + lengthSegment) }
            else
              { res with traversability := trav }
          circularSegLoop m query lineOf segNorm checkIncl inclLineOf
            computeUP pub junk (i + 1) p res2 rest
        else .error res

/-- Embedding of
`TraversabilityMap::checkCircularFootprintPath(path, publishPolygons, result)`
(TraversabilityMap.cpp lines 392-509).  `query p` abstracts the disc query
`isTraversable(p, radius + offset, computeUP, trav, poly, radius)` at centre
`p` (embedded separately as `isTraversableCircle`), returning its boolean
and by-reference traversability; `lineOf p prev` gives the cells of
`grid_map::LineIterator(map, endIndex, startIndex)` for a segment;
`segNorm prev p` is `(end - start).norm()` (the Euclidean norm is
irrational on `ℚ` and is therefore passed in); `junk` is as in
`circularSegLoop`.  Polygon publishing is visualisation only and carries no
result fields. -/
def checkCircularFootprintPath (m : TravMap) (query : Pos → Bool × ℚ)
    (lineOf : Pos → Pos → List Cell) (segNorm : Pos → Pos → ℚ)
    (checkIncl : Bool) (inclLineOf : Pos → Pos → List Cell)
    (computeUP pub : Bool) (junk : ℕ → ℚ) (poses : List Pos) : TravResult :=
  let res0 : TravResult := ⟨false, 0, 0⟩
  match poses with
  | [] => { res0 with is_safe := true }
  | [p] =>
    if checkIncl && !(checkInclination m (inclLineOf p p) p p) then res0
    else
      let q := query p
      if !q.1 then res0
      else { res0 with is_safe := true, traversability := q.2 }
  | p :: rest =>
    match circularSegLoop m query lineOf segNorm checkIncl inclLineOf
            computeUP pub junk 1 p res0 rest with
    | .error r => r
    | .ok r => { r with is_safe := true }

/-- Modelled from the spec: the length-weighted fusion rule for successful
path segments, `result = (segmentMetric * segmentWeight + priorResult * priorWeight) / (segmentWeight + priorWeight)`
with the accumulated weight growing across segments (spec section 4.5);
the first segment sets the result directly.  Input: a list of
(segment weight, segment metric) pairs. -/
def specWeightedFuse (segs : List (ℚ × ℚ)) : ℚ :=
  (segs.foldl
    (fun acc seg =>
      (acc.1 + seg.1, (seg.2 * seg.1 + acc.2 * acc.1) / (seg.1 + acc.1)))
    ((0 : ℚ), (0 : ℚ))).2

theorem travSum_nil (m : TravMap) (d : ℚ) : travSum m d [] = 0 := rfl

theorem travSum_cons (m : TravMap) (d : ℚ) (x : Cell × ℚ) (l : List (Cell × ℚ)) :
    travSum m d (x :: l) = travVal m d x.1 + travSum m d l := by
  simp [travSum]

/-- Once `traversableRadiusBiggerMinRadius` is set, the loop condition of
TraversabilityMap.cpp line 735 stops the spiral immediately. -/
theorem spiralLoop_stop (adm : Cell → Bool) (d rmin rmax : ℚ) (cUP : Bool) (ic : Cell)
    (l : List (Cell × ℚ)) (s : SpiralState) (h : s.stopGrow = true) :
    spiralLoop adm d rmin rmax cUP ic l s = .ok s := by
  cases l with
  | nil => rfl
  | cons x rest =>
    obtain ⟨c, r⟩ := x
    simp [spiralLoop, h]

/-- Running the spiral loop over a prefix of admissible cells only counts
the cells and accumulates their traversability values. -/
theorem spiralLoop_append_adm (adm : Cell → Bool) (d rmin rmax : ℚ) (cUP : Bool) (ic : Cell)
    (pre : List (Cell × ℚ)) :
    ∀ l : List (Cell × ℚ), (∀ x ∈ pre, adm x.1 = true) →
      ∀ (n : ℕ) (t mu : ℚ) (ct : Bool) (up : List Pos) (m : TravMap),
        spiralLoop adm d rmin rmax cUP ic (pre ++ l) ⟨n, t, mu, ct, false, up, m⟩
          = spiralLoop adm d rmin rmax cUP ic l
              ⟨n + pre.length, t + travSum m d pre, mu, ct, false, up, m⟩ := by
  induction pre with
  | nil =>
    intro l _ n t mu ct up m
    simp [travSum]
  | cons x rest ih =>
    intro l hpre n t mu ct up m
    obtain ⟨c, r⟩ := x
    have hc : adm c = true := hpre (c, r) (List.mem_cons_self _ _)
    have hrest : ∀ y ∈ rest, adm y.1 = true := fun y hy => hpre y (List.mem_cons_of_mem _ hy)
    rw [List.cons_append]
    rw [show spiralLoop adm d rmin rmax cUP ic ((c, r) :: (rest ++ l)) ⟨n, t, mu, ct, false, up, m⟩
          = spiralLoop adm d rmin rmax cUP ic (rest ++ l)
              ⟨n + 1, t + travVal m d c, mu, ct, false, up, m⟩ from by
      simp [spiralLoop, hc]]
    rw [ih l hrest]
    have hstate : (⟨n + 1 + rest.length, t + travVal m d c + travSum m d rest, mu, ct,
        false, up, m⟩ : SpiralState)
        = ⟨n + ((c, r) :: rest).length, t + travSum m d ((c, r) :: rest), mu, ct,
           false, up, m⟩ := by
      rw [travSum_cons, List.length_cons]
      exact congrArg₂ (fun a b => SpiralState.mk a b mu ct false up m) (by omega) (by ring)
    rw [hstate]

/-- First inadmissible cell met at radius `r` with `0 < radiusMin < r` while
the circle is still traversable: the blend branch of TraversabilityMap.cpp
lines 752-758 fires, caching the blended value and stopping the growth;
without the untraversable-polygon request the query then immediately
returns `false` (line 763). -/
theorem spiralLoop_blend (adm : Cell → Bool) (d rmin rmax : ℚ) (cUP : Bool) (ic : Cell)
    (c : Cell) (r : ℚ) (rest : List (Cell × ℚ))
    (n : ℕ) (t mu : ℚ) (up : List Pos) (m : TravMap)
    (hc : adm c = false) (hmin : 0 < rmin) (hr : rmin < r) :
    spiralLoop adm d rmin rmax cUP ic ((c, r) :: rest) ⟨n, t, mu, true, false, up, m⟩
      = if cUP then
          .ok ⟨n, t * (blendFactor rmin rmax r / (n : ℚ)), max mu r, true, true, up,
               m.setTravF ic (t * (blendFactor rmin rmax r / (n : ℚ)))⟩
        else
          .error (false, t * (blendFactor rmin rmax r / (n : ℚ)), UPolygon.empty,
                  m.setTravF ic (t * (blendFactor rmin rmax r / (n : ℚ)))) := by
  have h0 : ¬rmin = 0 := ne_of_gt hmin
  have h1 : ¬r ≤ rmin := not_le.mpr hr
  cases cUP with
  | false => simp [spiralLoop, hc, h0, h1]
  | true =>
    simp only [spiralLoop, hc, h0, h1]
    simp only [Bool.false_eq_true, if_false, if_true, ite_false, ite_true]
    rw [spiralLoop_stop]
    rfl

/-- General characterisation of the point/disc query when the spiral first
meets an inadmissible cell at radius `r` with `0 < radiusMin < r`, after a
prefix of admissible cells. -/
theorem isTraversableCircle_blend (m : TravMap) (adm : Cell → Bool) (d rmin rmax r : ℚ)
    (center : Pos) (pre rest : List (Cell × ℚ)) (c : Cell) (cUP : Bool)
    (hin : m.isInside center = true)
    (hcache : m.travF (m.getIndex center) = none)
    (hpre : ∀ x ∈ pre, adm x.1 = true)
    (hc : adm c = false) (hmin : 0 < rmin) (hr : rmin < r) :
    isTraversableCircle m adm (pre ++ (c, r) :: rest) d center rmax cUP rmin
      = if cUP then
          (true,
           travSum m d pre * (blendFactor rmin rmax r / (pre.length : ℚ)) / (pre.length : ℚ),
           UPolygon.empty,
           (m.setTravF (m.getIndex center)
              (travSum m d pre * (blendFactor rmin rmax r / (pre.length : ℚ)))).setTravF
             (m.getIndex center)
             (travSum m d pre * (blendFactor rmin rmax r / (pre.length : ℚ))
               / (pre.length : ℚ)))
        else
          (false, travSum m d pre * (blendFactor rmin rmax r / (pre.length : ℚ)),
           UPolygon.empty,
           m.setTravF (m.getIndex center)
             (travSum m d pre * (blendFactor rmin rmax r / (pre.length : ℚ)))) := by
  unfold isTraversableCircle
  simp only [hin, hcache, if_true, ite_true]
  rw [spiralLoop_append_adm adm d rmin rmax cUP (m.getIndex center) pre
        ((c, r) :: rest) hpre 0 0 0 true [] m]
  simp only [Nat.zero_add, zero_add]
  rw [spiralLoop_blend adm d rmin rmax cUP (m.getIndex center) c r rest
        pre.length (travSum m d pre) 0 [] m hc hmin hr]
  cases cUP with
  | false => simp
  | true => simp

/-- Running the spiral loop over an all-admissible cell list just counts
the cells and accumulates their traversability values. -/
theorem spiralLoop_all_adm (adm : Cell → Bool) (d rmin rmax : ℚ) (cUP : Bool) (ic : Cell)
    (l : List (Cell × ℚ)) (hl : ∀ x ∈ l, adm x.1 = true)
    (n : ℕ) (t mu : ℚ) (ct : Bool) (up : List Pos) (m : TravMap) :
    spiralLoop adm d rmin rmax cUP ic l ⟨n, t, mu, ct, false, up, m⟩
      = .ok ⟨n + l.length, t + travSum m d l, mu, ct, false, up, m⟩ := by
  have h := spiralLoop_append_adm adm d rmin rmax cUP ic l [] hl n t mu ct up m
  rw [List.append_nil] at h
  rw [h]
  rfl

/-- A small concrete traversability map used for concrete evaluations: every
position is inside, every position indexes to the centre cell `(0, 0)`,
cell positions are the cell coordinates, the `traversability` layer holds
`1/2` at the centre cell, and every footprint cache is invalid. -/
def exMap1 : TravMap where
  isInside := fun _ => true
  getIndex := fun _ => (0, 0)
  getPosition := fun c => ((c.1 : ℚ), (c.2 : ℚ))
  trav := fun c => if c = (0, 0) then some (1 / 2) else none
  slope := fun _ => none
  step := fun _ => none
  roughness := fun _ => none
  robotSlope := fun _ => none
  elevation := fun _ => none
  travF := fun _ => none
  slopeF := fun _ => none
  stepF := fun _ => none
  roughF := fun _ => none
  hasTravF := true
  hasSlopeF := true
  hasStepF := true
  hasRoughF := true

/-- Concrete admissibility: every cell is admissible except `(1, 0)`. -/
def exAdm : Cell → Bool := fun c => !(decide (c = ((1 : Int), (0 : Int))))

/-- Concrete spiral sequence: the centre cell at radius 0, then the
inadmissible cell `(1, 0)` at radius 1. -/
def exSpiral : List (Cell × ℚ) := [(((0 : Int), (0 : Int)), 0), (((1 : Int), (0 : Int)), 1)]

/-- C1 counterexample.  With `radiusMin = 1/2 > 0` and the first
inadmissible cell at spiral radius `1 > radiusMin`, but the untraversable
polygon not requested, the point/disc query returns `false` — not `true`
as the claim states for this case (`if (!computeUntraversablePolygon) return false;`
on TraversabilityMap.cpp line 763 also runs after the blend branch). -/
theorem C1_counterexample :
    (isTraversableCircle exMap1 exAdm exSpiral (1 / 2) ((0 : ℚ), (0 : ℚ)) 2 false (1 / 2)).1
      = false := by with_unfolding_all rfl

/-- C2 counterexample.  First call: blend branch without untraversable
polygon, returns `false` but caches the nonzero blended value `1/3` into
`traversability_footprint`.  Second call on the unchanged grid: cache hit,
returns `true`.  The two successive calls disagree, refuting idempotence. -/
theorem C2_counterexample :
    (isTraversableCircle exMap1 exAdm exSpiral (1 / 2) ((0 : ℚ), (0 : ℚ)) 2 false (1 / 2)).1
        = false ∧
    (isTraversableCircle
        (isTraversableCircle exMap1 exAdm exSpiral (1 / 2) ((0 : ℚ), (0 : ℚ)) 2 false
          (1 / 2)).2.2.2
        exAdm exSpiral (1 / 2) ((0 : ℚ), (0 : ℚ)) 2 false (1 / 2)).1 = true ∧
    (isTraversableCircle exMap1 exAdm exSpiral (1 / 2) ((0 : ℚ), (0 : ℚ)) 2 false (1 / 2)).2.1
        = 1 / 3 ∧
    (isTraversableCircle
        (isTraversableCircle exMap1 exAdm exSpiral (1 / 2) ((0 : ℚ), (0 : ℚ)) 2 false
          (1 / 2)).2.2.2
        exAdm exSpiral (1 / 2) ((0 : ℚ), (0 : ℚ)) 2 false (1 / 2)).2.1 = 1 / 3 := by
  refine ⟨?_, ?_, ?_, ?_⟩ <;> with_unfolding_all rfl

/-- C3 counterexample.  The robot-slope layer is invalid (`none`) at the
only sampled cell of the segment, yet `checkInclination` returns `true`:
an invalid sample is skipped by the `continue` on TraversabilityMap.cpp
line 804 instead of vetoing the path as the claim states. -/
theorem C3_counterexample :
    exMap1.robotSlope ((3 : Int), (3 : Int)) = none ∧
    ((0 : ℚ), (0 : ℚ)) ≠ ((1 : ℚ), (0 : ℚ)) ∧
    checkInclination exMap1 [((3 : Int), (3 : Int))] ((0 : ℚ), (0 : ℚ)) ((1 : ℚ), (0 : ℚ))
      = true := by
  refine ⟨by with_unfolding_all rfl, by norm_num [Prod.ext_iff], by with_unfolding_all rfl⟩

/-- Concrete map whose `roughness_footprint` cache holds a valid value at
the centre cell. -/
def exMapRough : TravMap :=
  { exMap1 with roughF := fun c => if c = ((0 : Int), (0 : Int)) then some 1 else none }

/-- C4 counterexample.  `resetTraversabilityFootprintLayers` never touches
`roughness_footprint` (TraversabilityMap.cpp lines 228-233 clear only
`step_footprint`, `slope_footprint` and `traversability_footprint`), so an
existing `roughness_footprint` layer keeps its valid cached value. -/
theorem C4_counterexample :
    exMapRough.hasRoughF = true ∧
    (resetTraversabilityFootprintLayers exMapRough).roughF ((0 : Int), (0 : Int))
      = some 1 := by
  refine ⟨?_, ?_⟩ <;> with_unfolding_all rfl

/-- C1 (amended): in the spiral query, when the first inadmissible cell is
met at spiral radius `r` with `0 < radiusMin < r`, the blended value
(running sum times `factor / nCells`) is written into the
`traversability_footprint` cache and the spiral stops growing (the
remainder `rest` of the spiral is irrelevant); but the returned verdict
depends on the untraversable-polygon request: without it the query returns
`false` with the blended value as out-value; with it the query returns
`true` with the blended value divided by `nCells` a second time. -/
theorem C1_blend_branch_behavior (m : TravMap) (adm : Cell → Bool) (d rmin rmax r : ℚ)
    (center : Pos) (pre rest : List (Cell × ℚ)) (c : Cell)
    (hin : m.isInside center = true)
    (hcache : m.travF (m.getIndex center) = none)
    (hpre : ∀ x ∈ pre, adm x.1 = true)
    (hc : adm c = false) (hmin : 0 < rmin) (hr : rmin < r) :
    isTraversableCircle m adm (pre ++ (c, r) :: rest) d center rmax false rmin
      = (false, travSum m d pre * (blendFactor rmin rmax r / (pre.length : ℚ)),
         UPolygon.empty,
         m.setTravF (m.getIndex center)
           (travSum m d pre * (blendFactor rmin rmax r / (pre.length : ℚ))))
    ∧ (isTraversableCircle m adm (pre ++ (c, r) :: rest) d center rmax true rmin).1 = true
    ∧ (isTraversableCircle m adm (pre ++ (c, r) :: rest) d center rmax true rmin).2.1
        = travSum m d pre * (blendFactor rmin rmax r / (pre.length : ℚ))
            / (pre.length : ℚ) := by
  have hF := isTraversableCircle_blend m adm d rmin rmax r center pre rest c false
      hin hcache hpre hc hmin hr
  have hT := isTraversableCircle_blend m adm d rmin rmax r center pre rest c true
      hin hcache hpre hc hmin hr
  simp only [Bool.false_eq_true, if_false, ite_false] at hF
  simp only [if_true, ite_true] at hT
  exact ⟨hF, by rw [hT], by rw [hT]⟩

/-- Witness for C1 at a concrete grid: one admissible centre cell with
traversability `1/2`, then an inadmissible cell at radius `1`, with
`radiusMin = 1/2`, `radiusMax = 2`: the query returns `false` without the
polygon request and `true` with it. -/
theorem C1_blend_branch_behavior_witness :
    (isTraversableCircle exMap1 exAdm exSpiral (1 / 2) ((0 : ℚ), (0 : ℚ)) 2 false (1 / 2)).1
        = false
    ∧ (isTraversableCircle exMap1 exAdm exSpiral (1 / 2) ((0 : ℚ), (0 : ℚ)) 2 true (1 / 2)).1
        = true := by
  have h := C1_blend_branch_behavior exMap1 exAdm (1 / 2) (1 / 2) 2 1 ((0 : ℚ), (0 : ℚ))
      [(((0 : Int), (0 : Int)), (0 : ℚ))] [] ((1 : Int), (0 : Int)) rfl rfl
      (by decide) (by decide) (by norm_num) (by norm_num)
  exact ⟨congrArg (fun x => x.1) h.1, h.2.1⟩

/-- C10: when the blend branch is reached (first inadmissible cell at
radius `r > radiusMin > 0`) and the spiral sequence starts, as the spiral
iterator does, with the in-map centre cell at radius `0`, at least one
admissible cell has been accumulated before the blend, so the division by
`nCells` in TraversabilityMap.cpp line 754 is by a positive count. -/
theorem C10_blend_divisor_positive (m : TravMap) (adm : Cell → Bool) (d rmin rmax r : ℚ)
    (center : Pos) (pre rest : List (Cell × ℚ)) (c : Cell)
    (hhead : (pre ++ (c, r) :: rest).head? = some (m.getIndex center, 0))
    (hin : m.isInside center = true)
    (hcache : m.travF (m.getIndex center) = none)
    (hpre : ∀ x ∈ pre, adm x.1 = true)
    (hc : adm c = false) (hmin : 0 < rmin) (hr : rmin < r) :
    0 < pre.length
    ∧ (isTraversableCircle m adm (pre ++ (c, r) :: rest) d center rmax false rmin).2.1
        = travSum m d pre * (blendFactor rmin rmax r / (pre.length : ℚ)) := by
  have hne : pre ≠ [] := by
    intro hnil
    subst hnil
    simp only [List.nil_append, List.head?_cons, Option.some.injEq, Prod.mk.injEq] at hhead
    have h0r : (0 : ℚ) < r := lt_trans hmin hr
    rw [hhead.2] at h0r
    exact lt_irrefl 0 h0r
  refine ⟨List.length_pos.mpr hne, ?_⟩
  have h := isTraversableCircle_blend m adm d rmin rmax r center pre rest c false
      hin hcache hpre hc hmin hr
  simp only [Bool.false_eq_true, if_false, ite_false] at h
  rw [h]

/-- Witness for C10 at the concrete grid of the C1 witness: the prefix
before the first inadmissible cell has one cell (the centre), so the blend
divisor is `1 > 0`. -/
theorem C10_blend_divisor_positive_witness :
    0 < ([(((0 : Int), (0 : Int)), (0 : ℚ))] : List (Cell × ℚ)).length
    ∧ (isTraversableCircle exMap1 exAdm exSpiral (1 / 2) ((0 : ℚ), (0 : ℚ)) 2 false (1 / 2)).2.1
        = travSum exMap1 (1 / 2) [(((0 : Int), (0 : Int)), (0 : ℚ))]
            * (blendFactor (1 / 2) 2 1
                / (([(((0 : Int), (0 : Int)), (0 : ℚ))] : List (Cell × ℚ)).length : ℚ)) := by
  have h := C10_blend_divisor_positive exMap1 exAdm (1 / 2) (1 / 2) 2 1 ((0 : ℚ), (0 : ℚ))
      [(((0 : Int), (0 : Int)), (0 : ℚ))] [] ((1 : Int), (0 : Int)) rfl rfl rfl
      (by decide) (by decide) (by norm_num) (by norm_num)
  exact h

/-- C2 (amended): the point/disc query is idempotent on a clean run —
when the centre is in the map, the `traversability_footprint` cache is
invalid there, every spiral cell is admissible and the resulting average
is nonzero, the first call returns `(true, average)` and caches the
average, and the second call on the unchanged grid (a cache hit) returns
the identical result.  (The C2 counterexample shows this fails when the
first call takes the blend branch without the polygon request.) -/
theorem C2_idempotent_on_clean_spiral (m : TravMap) (adm : Cell → Bool) (d : ℚ)
    (spiral : List (Cell × ℚ)) (center : Pos) (rmax rmin : ℚ) (cUP : Bool)
    (hin : m.isInside center = true)
    (hcache : m.travF (m.getIndex center) = none)
    (hadm : ∀ x ∈ spiral, adm x.1 = true)
    (havg : travSum m d spiral / (spiral.length : ℚ) ≠ 0) :
    isTraversableCircle (isTraversableCircle m adm spiral d center rmax cUP rmin).2.2.2
        adm spiral d center rmax cUP rmin
      = isTraversableCircle m adm spiral d center rmax cUP rmin
    ∧ (isTraversableCircle m adm spiral d center rmax cUP rmin).1 = true
    ∧ (isTraversableCircle m adm spiral d center rmax cUP rmin).2.1
        = travSum m d spiral / (spiral.length : ℚ) := by
  have hfirst : isTraversableCircle m adm spiral d center rmax cUP rmin
      = (true, travSum m d spiral / (spiral.length : ℚ), UPolygon.empty,
         m.setTravF (m.getIndex center) (travSum m d spiral / (spiral.length : ℚ))) := by
    unfold isTraversableCircle
    simp only [hin, hcache, if_true, ite_true]
    rw [spiralLoop_all_adm adm d rmin rmax cUP (m.getIndex center) spiral hadm 0 0 0 true [] m]
    simp
  have hsecond : isTraversableCircle
      (m.setTravF (m.getIndex center) (travSum m d spiral / (spiral.length : ℚ)))
      adm spiral d center rmax cUP rmin
      = (true, travSum m d spiral / (spiral.length : ℚ), UPolygon.empty,
         m.setTravF (m.getIndex center) (travSum m d spiral / (spiral.length : ℚ))) := by
    unfold isTraversableCircle
    simp [TravMap.setTravF, hin, havg]
  rw [hfirst]
  exact ⟨hsecond, rfl, rfl⟩

/-- Witness for C2 at a concrete grid whose single spiral cell is
admissible with traversability `1/2`: both successive calls return
`(true, 1/2)`. -/
theorem C2_idempotent_on_clean_spiral_witness :
    isTraversableCircle
        (isTraversableCircle exMap1 exAdm [(((0 : Int), (0 : Int)), (0 : ℚ))] (1 / 2)
          ((0 : ℚ), (0 : ℚ)) 2 false 0).2.2.2
        exAdm [(((0 : Int), (0 : Int)), (0 : ℚ))] (1 / 2) ((0 : ℚ), (0 : ℚ)) 2 false 0
      = isTraversableCircle exMap1 exAdm [(((0 : Int), (0 : Int)), (0 : ℚ))] (1 / 2)
          ((0 : ℚ), (0 : ℚ)) 2 false 0
    ∧ (isTraversableCircle exMap1 exAdm [(((0 : Int), (0 : Int)), (0 : ℚ))] (1 / 2)
        ((0 : ℚ), (0 : ℚ)) 2 false 0).1 = true := by
  have h := C2_idempotent_on_clean_spiral exMap1 exAdm (1 / 2)
      [(((0 : Int), (0 : Int)), (0 : ℚ))] ((0 : ℚ), (0 : ℚ)) 2 0 false rfl rfl
      (by decide) (by norm_num [travSum, travVal, exMap1])
  exact ⟨h.1, h.2.1⟩

/-- C7: for a query point outside the grid, the point/disc query returns
the configured default traversability as the score, reports traversable
exactly when the default is nonzero, leaves the untraversable polygon
empty in that case, and does not modify the map. -/
theorem C7_outside_grid_default (m : TravMap) (adm : Cell → Bool)
    (spiral : List (Cell × ℚ)) (d : ℚ) (center : Pos) (rmax rmin : ℚ) (cUP : Bool)
    (hout : m.isInside center = false) :
    ((isTraversableCircle m adm spiral d center rmax cUP rmin).1 = true ↔ d ≠ 0)
    ∧ (isTraversableCircle m adm spiral d center rmax cUP rmin).2.1 = d
    ∧ (d ≠ 0 → (isTraversableCircle m adm spiral d center rmax cUP rmin).2.2.1
        = UPolygon.empty)
    ∧ (isTraversableCircle m adm spiral d center rmax cUP rmin).2.2.2 = m := by
  unfold isTraversableCircle
  rw [hout]
  by_cases hd : d = 0
  · subst hd
    simp
  · simp [hd]

/-- A concrete map whose every position is outside the grid. -/
def exMapOut : TravMap := { exMap1 with isInside := fun _ => false }

/-- Witness for C7: outside the grid with default `3/5` the query returns
`(true, 3/5)` with an empty untraversable polygon. -/
theorem C7_outside_grid_default_witness :
    (isTraversableCircle exMapOut exAdm [] (3 / 5) ((0 : ℚ), (0 : ℚ)) 2 false 0).1 = true
    ∧ (isTraversableCircle exMapOut exAdm [] (3 / 5) ((0 : ℚ), (0 : ℚ)) 2 false 0).2.1 = 3 / 5
    ∧ (isTraversableCircle exMapOut exAdm [] (3 / 5) ((0 : ℚ), (0 : ℚ)) 2 false 0).2.2.1
        = UPolygon.empty := by
  have h := C7_outside_grid_default exMapOut exAdm [] (3 / 5) ((0 : ℚ), (0 : ℚ)) 2 0 false rfl
  have hd : (3 / 5 : ℚ) ≠ 0 := by norm_num
  exact ⟨h.1.mpr hd, h.2.1, h.2.2.1 hd⟩

/-- Characterisation of the inclination check along a proper segment: it
fails exactly when some line cell carries a valid robot-slope value equal
to zero; invalid (NaN) cells are skipped by the `continue` of
TraversabilityMap.cpp line 804. -/
theorem checkInclination_false_iff (m : TravMap) (line : List Cell) (start stop : Pos)
    (hne : stop ≠ start) :
    checkInclination m line start stop = false ↔ ∃ c ∈ line, m.robotSlope c = some 0 := by
  unfold checkInclination
  rw [if_neg hne]
  induction line with
  | nil => simp
  | cons c rest ih =>
    rcases h : m.robotSlope c with _ | v
    · simp [List.all_cons, h, ih]
    · by_cases hv : v = 0
      · subst hv
        simp [List.all_cons, h]
      · simp [List.all_cons, h, hv, ih]

/-- C3 (amended): only a valid zero sample of the robot-slope layer vetoes:
along a proper segment `checkInclination` returns `false` exactly when
some sampled line cell holds a valid robot-slope value equal to zero
(invalid samples are skipped), and for a single-pose path with the
inclination check enabled, a valid zero at the pose makes the path check
return the default result (`is_safe = false`, zero traversability and
area) without scoring. -/
theorem C3_valid_zero_vetoes (m : TravMap) (line : List Cell) (start stop : Pos)
    (query : Pos → Bool × ℚ) (lineOf inclLineOf : Pos → Pos → List Cell)
    (segNorm : Pos → Pos → ℚ) (junk : ℕ → ℚ) (p : Pos) (cUP pub : Bool)
    (hne : stop ≠ start) :
    (checkInclination m line start stop = false ↔ ∃ c ∈ line, m.robotSlope c = some 0)
    ∧ (m.robotSlope (m.getIndex p) = some 0 →
        checkCircularFootprintPath m query lineOf segNorm true inclLineOf cUP pub junk [p]
          = ⟨false, 0, 0⟩) := by
  refine ⟨checkInclination_false_iff m line start stop hne, fun hz => ?_⟩
  simp [checkCircularFootprintPath, checkInclination, hz]

/-- A concrete map whose robot-slope layer holds a valid zero at the
centre cell `(0, 0)` and is invalid elsewhere. -/
def exMapIncl : TravMap :=
  { exMap1 with robotSlope := fun c => if c = ((0 : Int), (0 : Int)) then some 0 else none }

/-- Witness for C3: on a line containing the valid-zero cell the
inclination check fails, and the single-pose path with the inclination
check enabled returns the default result. -/
theorem C3_valid_zero_vetoes_witness :
    checkInclination exMapIncl [((0 : Int), (0 : Int))] ((0 : ℚ), (0 : ℚ)) ((1 : ℚ), (0 : ℚ))
        = false
    ∧ checkCircularFootprintPath exMapIncl (fun _ => (true, 1)) (fun _ _ => [])
        (fun _ _ => 1) true (fun _ _ => []) false false (fun _ => 0) [((0 : ℚ), (0 : ℚ))]
        = ⟨false, 0, 0⟩ := by
  have h := C3_valid_zero_vetoes exMapIncl [((0 : Int), (0 : Int))] ((0 : ℚ), (0 : ℚ))
      ((1 : ℚ), (0 : ℚ)) (fun _ => (true, 1)) (fun _ _ => []) (fun _ _ => [])
      (fun _ _ => 1) (fun _ => 0) ((0 : ℚ), (0 : ℚ)) false false
      (by norm_num [Prod.ext_iff])
  refine ⟨h.1.mpr ⟨((0 : Int), (0 : Int)), by simp, by with_unfolding_all rfl⟩, ?_⟩
  exact h.2 (by with_unfolding_all rfl)

/-- C4 (amended): the explicit reset clears `step_footprint`,
`slope_footprint` and `traversability_footprint` (every cell invalid, when
the layer exists), but leaves `roughness_footprint` — and every other
layer — untouched. -/
theorem C4_reset_behavior (m : TravMap) (c : Cell) :
    (resetTraversabilityFootprintLayers m).roughF = m.roughF
    ∧ (m.hasStepF = true → (resetTraversabilityFootprintLayers m).stepF c = none)
    ∧ (m.hasSlopeF = true → (resetTraversabilityFootprintLayers m).slopeF c = none)
    ∧ (m.hasTravF = true → (resetTraversabilityFootprintLayers m).travF c = none) := by
  unfold resetTraversabilityFootprintLayers
  rcases hst : m.hasStepF <;> rcases hsl : m.hasSlopeF <;> rcases htr : m.hasTravF <;>
    simp [hst, hsl, htr]

/-- Witness for C4 at the concrete map with a cached roughness value: the
three cleared layers are invalid at the centre cell, the roughness cache
is untouched. -/
theorem C4_reset_behavior_witness :
    (resetTraversabilityFootprintLayers exMapRough).roughF = exMapRough.roughF
    ∧ (resetTraversabilityFootprintLayers exMapRough).stepF ((0 : Int), (0 : Int)) = none
    ∧ (resetTraversabilityFootprintLayers exMapRough).slopeF ((0 : Int), (0 : Int)) = none
    ∧ (resetTraversabilityFootprintLayers exMapRough).travF ((0 : Int), (0 : Int)) = none := by
  have h := C4_reset_behavior exMapRough ((0 : Int), (0 : Int))
  exact ⟨h.1, h.2.1 rfl, h.2.2.1 rfl, h.2.2.2 rfl⟩

/-- C8 (amended): `setElevationMap` validates the frame identity and then
the required layers; `setTraversabilityMap` validates only the required
layers (it performs no frame check).  A frame mismatch leaves the state
fully unchanged; a missing required layer makes either setter return
`false` with the stored maps and initialisation flags unchanged but with
`zPosition_` already overwritten by the incoming message's z value. -/
theorem C8_validation_behavior (st : MapNodeState) (msg : GridMapMsg) :
    (st.mapFrameId ≠ msg.frameId → setElevationMap st msg = (false, st))
    ∧ (st.mapFrameId = msg.frameId →
        (st.elevationMapLayers.all fun layer => msg.layers.contains layer) = false →
        setElevationMap st msg = (false, { st with zPosition := msg.z }))
    ∧ ((st.traversabilityMapLayers.all fun layer => msg.layers.contains layer) = false →
        setTraversabilityMap st msg = (false, { st with zPosition := msg.z }))
    ∧ ((st.traversabilityMapLayers.all fun layer => msg.layers.contains layer) = true →
        setTraversabilityMap st msg
          = (true,
             { st with
                zPosition := msg.z
                traversabilityMap := some msg
                traversabilityMapInitialized := true })) := by
  refine ⟨fun h1 => ?_, fun h1 h2 => ?_, fun h2 => ?_, fun h2 => ?_⟩
  · unfold setElevationMap
    rw [if_pos h1]
  · unfold setElevationMap
    rw [if_neg (fun hc => hc h1), h2, if_neg Bool.false_ne_true]
  · unfold setTraversabilityMap
    rw [h2, if_neg Bool.false_ne_true]
  · unfold setTraversabilityMap
    rw [h2, if_pos rfl]

/-- A concrete configured node state: expected frame `map`, the standard
required layer lists, nothing stored yet. -/
def exSt : MapNodeState where
  mapFrameId := "map"
  elevationMapLayers := ["elevation", "upper_bound", "lower_bound"]
  traversabilityMapLayers :=
    ["traversability", "traversability_slope", "traversability_step",
     "traversability_roughness"]
  zPosition := 0
  elevationMap := none
  traversabilityMap := none
  elevationMapInitialized := false
  traversabilityMapInitialized := false

/-- A concrete incoming map message whose frame id differs from the
configured one but which carries all required traversability layers. -/
def exMsgWrongFrame : GridMapMsg where
  frameId := "odom"
  layers :=
    ["traversability", "traversability_slope", "traversability_step",
     "traversability_roughness"]
  z := 7
  content := 1

/-- C8 counterexample.  The claim says both setters validate the incoming
frame identity and reject on mismatch; but `setTraversabilityMap` performs
no frame check (TraversabilityMap.cpp lines 158-172): a message with a
mismatched frame and complete layers is accepted, and the stored state
changes. -/
theorem C8_counterexample :
    exSt.mapFrameId ≠ exMsgWrongFrame.frameId
    ∧ (setTraversabilityMap exSt exMsgWrongFrame).1 = true
    ∧ (setTraversabilityMap exSt exMsgWrongFrame).2 ≠ exSt := by
  refine ⟨by decide, by with_unfolding_all rfl, ?_⟩
  intro h
  have hz := congrArg MapNodeState.zPosition h
  have : (7 : ℚ) = 0 := by
    have h7 : (setTraversabilityMap exSt exMsgWrongFrame).2.zPosition = 7 := by
      with_unfolding_all rfl
    rw [h7] at hz
    simp only [exSt] at hz
    exact hz
  norm_num at this

/-- Witness for C8 at the concrete state and message: the elevation setter
rejects the mismatched frame with the state unchanged; the traversability
setter accepts the same message in spite of the mismatched frame. -/
theorem C8_validation_behavior_witness :
    setElevationMap exSt exMsgWrongFrame = (false, exSt)
    ∧ setTraversabilityMap exSt exMsgWrongFrame
        = (true,
           { exSt with
              zPosition := 7
              traversabilityMap := some exMsgWrongFrame
              traversabilityMapInitialized := true }) := by
  have h := C8_validation_behavior exSt exMsgWrongFrame
  exact ⟨h.1 (by decide), h.2.2.2 (by decide)⟩

/-- C9: each per-cell check returns `true` immediately, without touching
the map (in particular without writing its footprint cache), whenever the
corresponding base layer value is anything other than a valid zero —
including the invalid NaN sentinel, since `at(layer, index) == 0.0` is
false on NaN.  This holds for any window cell list and, for the step
check, for any behaviour of the inner gap search. -/
theorem C9_nonzero_base_short_circuit (m : TravMap) (circle : List Cell)
    (maxGapWidth resolution : ℚ) (search : TravMap → Cell → Bool × TravMap)
    (index : Cell) :
    (m.slope index ≠ some 0 →
      checkForSlope m circle maxGapWidth resolution index = (true, m))
    ∧ (m.step index ≠ some 0 → checkForStep m search index = (true, m))
    ∧ (m.roughness index ≠ some 0 →
      checkForRoughness m circle maxGapWidth resolution index = (true, m)) := by
  refine ⟨fun h => ?_, fun h => ?_, fun h => ?_⟩
  · simp [checkForSlope, h]
  · simp [checkForStep, h]
  · simp [checkForRoughness, h]

/-- Witness for C9 at the concrete map whose base layers are invalid
(`none`) at the centre cell: all three checks return `true` with the map
unchanged, for an arbitrary inner step search. -/
theorem C9_nonzero_base_short_circuit_witness :
    checkForSlope exMap1 [] 1 1 ((0 : Int), (0 : Int)) = (true, exMap1)
    ∧ checkForStep exMap1 (fun mm cc => (false, mm.setStepF cc 0)) ((0 : Int), (0 : Int))
        = (true, exMap1)
    ∧ checkForRoughness exMap1 [] 1 1 ((0 : Int), (0 : Int)) = (true, exMap1) := by
  have h := C9_nonzero_base_short_circuit exMap1 [] 1 1
      (fun mm cc => (false, mm.setStepF cc 0)) ((0 : Int), (0 : Int))
  exact ⟨h.1 (by simp [exMap1]), h.2.1 (by simp [exMap1]), h.2.2 (by simp [exMap1])⟩

/-- Concrete line-iterator cell lists for a straight 3-pose path at
`(0,0), (1,0), (2,0)`: the first segment's line holds the single cell
`(10, 0)`, the second segment's line the single cell `(20, 0)` (the path
code queries `lineOf end start`). -/
def exLineOf : Pos → Pos → List Cell := fun a b =>
  if a = ((1 : ℚ), (0 : ℚ)) ∧ b = ((0 : ℚ), (0 : ℚ)) then [((10 : Int), (0 : Int))]
  else if a = ((2 : ℚ), (0 : ℚ)) ∧ b = ((1 : ℚ), (0 : ℚ)) then [((20 : Int), (0 : Int))]
  else []

/-- Concrete disc-query results for C5: both segments fully traversable,
the first segment's sampled cell scores `1`, the second's `1/2`. -/
def exQuery5 : Pos → Bool × ℚ := fun p =>
  if p = ((10 : ℚ), (0 : ℚ)) then (true, 1)
  else if p = ((20 : ℚ), (0 : ℚ)) then (true, 1 / 2)
  else (true, 0)

/-- Concrete disc-query results for C6: the first segment's sampled cell is
traversable with score `4/5`, the second segment's cell is untraversable. -/
def exQuery6 : Pos → Bool × ℚ := fun p =>
  if p = ((10 : ℚ), (0 : ℚ)) then (true, 4 / 5)
  else if p = ((20 : ℚ), (0 : ℚ)) then (false, 0)
  else (true, 0)

/-- Unit segment norm: both segments of the concrete path have length 1. -/
def exSegNorm : Pos → Pos → ℚ := fun _ _ => 1

/-- The straight 3-pose path `(0,0) → (1,0) → (2,0)`. -/
def exPoses : List Pos := [((0 : ℚ), (0 : ℚ)), ((1 : ℚ), (0 : ℚ)), ((2 : ℚ), (0 : ℚ))]

/-- Indeterminate value 0 for the uninitialised `lengthPath` read. -/
def junk0 : ℕ → ℚ := fun _ => 0

/-- Indeterminate value 5 for the uninitialised `lengthPath` read. -/
def junk5 : ℕ → ℚ := fun _ => 5

/-- C5: on the straight 3-pose circular-footprint path with unit segment
lengths and per-segment traversabilities `1` and `1/2`, the code's result
depends on the indeterminate value read from the uninitialised local
`lengthPath` (declared inside the loop body, TraversabilityMap.cpp line
490, read on lines 493-494 at the third pose): with indeterminate value 0
the result is `1/2`, with 5 it is `11/12`, while the specified
length-weighted fusion gives `3/4`. -/
theorem C5_uninitialized_weight_dependence :
    checkCircularFootprintPath exMap1 exQuery5 exLineOf exSegNorm false exLineOf
        false false junk0 exPoses = ⟨true, 1 / 2, 0⟩
    ∧ checkCircularFootprintPath exMap1 exQuery5 exLineOf exSegNorm false exLineOf
        false false junk5 exPoses = ⟨true, 11 / 12, 0⟩
    ∧ specWeightedFuse [(1, 1), (1, 1 / 2)] = 3 / 4 := by
    refine ⟨?_, ?_, ?_⟩ <;> with_unfolding_all rfl

/-- C6: on the straight 3-pose circular-footprint path whose first segment
is traversable with score `4/5` and whose second segment is blocked, the
path check returns `is_safe = false` and `area = 0` but
`traversability = 4/5` — the value written by the first successful
segment, not the initialised default `0.0` that the code's own comment on
TraversabilityMap.cpp lines 462 and 501 announces. -/
theorem C6_failed_segment_keeps_partial_value :
    checkCircularFootprintPath exMap1 exQuery6 exLineOf exSegNorm false exLineOf
        false false junk0 exPoses = ⟨false, 4 / 5, 0⟩
    ∧ (4 / 5 : ℚ) ≠ 0 := by
  exact ⟨by with_unfolding_all rfl, by norm_num⟩

end TravEst
